import Mathlib

/-!
Verification of the mock HTTP server (`bin/mock_server.py`).

The server's request dispatcher (`MockHandler.do_GET`) is embedded as a pure
function from the request path and the retry-counter table to a response and
an updated table.  Paths are lists of characters; the Python substring test
`"x" in path` is `List.IsInfix` (`<:+:`); `str.replace(pat, "")` is embedded
as leftmost non-overlapping deletion of every occurrence of `pat`.
The fixture store (the directory the delegate serves from) is an abstract
map from paths to file contents (byte lists).
-/

namespace MockServer

/-- A request path, as the list of its characters (Python `self.path`). -/
abbrev Path := List Char

/-- The retry-counter table `request_counts`: Python dict with
`request_counts.get(path, 0)` semantics, i.e. total map defaulting to 0. -/
abbrev Counts := Path → Nat

/-- The fixture store: maps a path to the bytes of the file it resolves to
under the fixture root, or `none` when no such file exists. -/
abbrev FS := Path → Option (List Nat)

/-- The fresh (empty) retry-counter table. -/
def freshCounts : Counts := fun _ => 0

/-- The scenario substring "/404" (line 44). -/
def s404 : Path := "/404".data

/-- The scenario substring "/500" (line 49). -/
def s500 : Path := "/500".data

/-- The scenario substring "/slow" (line 54). -/
def sslow : Path := "/slow".data

/-- The scenario substring "/fail-then-ok" (lines 61 and 72). -/
def sfto : Path := "/fail-then-ok".data

/-- The scenario substring "/wrong-checksum" (line 75). -/
def swc : Path := "/wrong-checksum".data

/-- The scenario substring "/corrupted.zip" (line 84). -/
def scz : Path := "/corrupted.zip".data

/-- The scenario substring "/small-file" (line 92). -/
def ssf : Path := "/small-file".data

/-- An HTTP response produced by the handler. -/
inductive Response where
  /-- `send_error(status, message)`: an error status page. -/
  | err (status : Nat) (message : String) : Response
  /-- The `/slow` branch: 200 with empty body, sent after a 120 s sleep. -/
  | slowOk : Response
  /-- `send_response(200)` with an explicit content type and body bytes. -/
  | content (ctype : String) (body : List Nat) : Response
  /-- Successful delegation to static file serving: 200 with the file bytes. -/
  | staticOk (body : List Nat) : Response
deriving DecidableEq

/-- The HTTP status code of a response. -/
def Response.status : Response → Nat
  | .err s _ => s
  | .slowOk => 200
  | .content _ _ => 200
  | .staticOk _ => 200

/-- The 14 bytes of the ASCII literal `b"wrong content "` (line 80). -/
def wrongChunk : List Nat := "wrong content ".data.map Char.toNat

/-- Body of the `/wrong-checksum` response: `b"wrong content " * 100000`
(line 80). -/
def wrongChecksumBody : List Nat := (List.replicate 100000 wrongChunk).flatten

/-- Body of the `/corrupted.zip` response: `b"PK\x03\x04" + b"\x00" * 100`
(line 88). -/
def corruptedZipBody : List Nat := [80, 75, 3, 4] ++ List.replicate 100 0

/-- Body of the `/small-file` response: `b"too small"` (line 96). -/
def smallFileBody : List Nat := "too small".data.map Char.toNat

/-- `Modelled from the spec:` the delegate's static file serving
(`SimpleHTTPRequestHandler.do_GET`, standard library, not in src/): resolve
the path in the fixture store; serve its bytes with status 200, and produce
the delegate's standard not-found response when the file is missing. -/
def serveStatic (fs : FS) (p : Path) : Response :=
  match fs p with
  | some b => .staticOk b
  | none => .err 404 "File not found"

/-- Increment-and-store for the retry counter: embeds lines 62-64
(`count = request_counts.get(path, 0) + 1; request_counts[path] = count`). -/
def bump (c : Counts) (p : Path) : Counts :=
  fun q => if q = p then c p + 1 else c q

/-- Leftmost non-overlapping deletion of every occurrence of `pat`,
with fuel (`fuel ≥ p.length` makes the fuel irrelevant): the semantics of
Python `p.replace(pat, "")` for a non-empty `pat`. -/
def stripAllAux (pat : Path) : Nat → Path → Path
  | 0, p => p
  | _ + 1, [] => []
  | fuel + 1, c :: rest =>
    if pat <+: (c :: rest) then stripAllAux pat fuel ((c :: rest).drop pat.length)
    else c :: stripAllAux pat fuel rest

/-- `p.replace(pat, "")` for non-empty `pat` (line 72 uses
`pat = "/fail-then-ok"`). -/
def stripAll (pat : Path) (p : Path) : Path := stripAllAux pat p.length p

/-- Python `s or "/"`: the empty string is falsy (line 72). -/
def orSlash (p : Path) : Path := if p = [] then "/".data else p

/-- Lines 74-100 of `do_GET`: the checks after the `/fail-then-ok` block.
They test the ORIGINAL `path` local variable; only the final delegation
(line 100, `super().do_GET()`) uses the possibly rewritten `self.path`,
passed here as `servePath`.  No branch here touches `request_counts`. -/
def afterFTO (fs : FS) (path servePath : Path) : Response :=
  if swc <:+: path then .content "application/octet-stream" wrongChecksumBody
  else if scz <:+: path then .content "application/zip" corruptedZipBody
  else if ssf <:+: path then .content "application/octet-stream" smallFileBody
  else serveStatic fs servePath

/-- `MockHandler.do_GET` (lines 40-100): the path-based failure dispatcher.
Returns the response together with the updated retry-counter table. -/
def do_GET (fs : FS) (c : Counts) (path : Path) : Response × Counts :=
  if s404 <:+: path then (.err 404 "Not Found", c)
  else if s500 <:+: path then (.err 500 "Internal Server Error", c)
  else if sslow <:+: path then (.slowOk, c)
  else if sfto <:+: path then
    if c path + 1 < 3 then (.err 503 "Service Temporarily Unavailable", bump c path)
    else (afterFTO fs path (orSlash (stripAll sfto path)), bump c path)
  else (afterFTO fs path path, c)

/-- The retry-counter table after `n` sequential requests to `P`, starting
from table `c`. -/
def countsAfter (fs : FS) (P : Path) (c : Counts) : Nat → Counts
  | 0 => c
  | n + 1 => (do_GET fs (countsAfter fs P c n) P).2

/-- The fixture store of an empty fixtures directory. -/
def fsEmpty : FS := fun _ => none

/-- Seconds `do_GET` spends before responding: `time.sleep(120)` in the
`/slow` branch (line 55); every other branch responds without sleeping. -/
def handle_seconds (path : Path) : Nat :=
  if s404 <:+: path then 0
  else if s500 <:+: path then 0
  else if sslow <:+: path then 120
  else 0

/-- `ReusableTCPServer` (line 103) subclasses `socketserver.TCPServer`, the
standard library's synchronous server type (no `ThreadingMixIn`): accepted
connections are handled strictly one at a time by the accept loop itself.
For requests arriving simultaneously on separate connections, in arrival
order, each request therefore completes only after every earlier request has
been fully handled: completion times are the running sums of the per-request
handling times. -/
def serial_completion_times : List Path → List Nat
  | [] => []
  | p :: ps => handle_seconds p ::
      (serial_completion_times ps).map (fun t => handle_seconds p + t)

/-- The filename of the synthetic binary fixture (line 112). -/
def mock_binary : Path := "mock_binary".data

/-- `2 * 1024 * 1024` (line 115): size of the synthetic fixture. -/
def MOCK_BINARY_SIZE : Nat := 2 * 1024 * 1024

/-- Lines 112-115 of `main`: create the zero-filled `mock_binary` fixture,
only when no file of that name exists under the fixture root. -/
def ensure_mock_binary (fs : FS) : FS :=
  if (fs mock_binary).isSome then fs
  else fun p => if p = mock_binary then some (List.replicate MOCK_BINARY_SIZE 0) else fs p

/-- `Modelled from the spec:` the HTTP method dispatch of the underlying
request-handler framework (`BaseHTTPRequestHandler`, standard library, not
in src/): each request is routed to the handler method named after its HTTP
method.  `MockHandler` overrides only `do_GET` (lines 40-100), so every
other method is handled by the delegate's default behavior, abstracted here
as `delegate`; no such handling mentions `request_counts`. -/
def handle_request (delegate : String → Path → Response) (fs : FS) (c : Counts)
    (method : String) (path : Path) : Response × Counts :=
  if method = "GET" then do_GET fs c path
  else (delegate method path, c)

/-- `log_message` (lines 35-38): whether a log line is emitted for a request.
`os.environ.get("DEBUG")` is `none` when the variable is unset; Python string
truthiness makes exactly the non-empty strings truthy. -/
def log_message (debugEnv : Option String) : Bool :=
  match debugEnv with
  | none => false
  | some s => if s = "" then false else true

/-- One request handled together with logging: the response and updated
table from `do_GET`, plus whether the framework's per-request call to
`log_message` prints a line. -/
def handle_logged (debugEnv : Option String) (fs : FS) (c : Counts) (p : Path) :
    Response × Counts × Bool :=
  ((do_GET fs c p).1, (do_GET fs c p).2, log_message debugEnv)

/-! ### Helper lemmas -/

theorem bump_self (c : Counts) (p : Path) : bump c p p = c p + 1 := if_pos rfl

theorem bump_ne (c : Counts) (p q : Path) (h : q ≠ p) : bump c p q = c q := if_neg h

/-- `do_GET` never changes the counter entry of any key other than the
requested path. -/
theorem do_GET_counts_frame (fs : FS) (c : Counts) (P q : Path) (h : q ≠ P) :
    (do_GET fs c P).2 q = c q := by
  unfold do_GET
  split_ifs <;> first | rfl | exact bump_ne c P q h

/-- The response of `do_GET` depends on the counter table only through the
entry of the requested path. -/
theorem do_GET_resp_congr (fs : FS) (c c' : Counts) (P : Path) (h : c P = c' P) :
    (do_GET fs c P).1 = (do_GET fs c' P).1 := by
  unfold do_GET
  rw [h]
  split_ifs <;> rfl

/-- On a path matching the `/fail-then-ok` check and none of the earlier
checks, `do_GET` bumps exactly that path's counter, answers 503 while the
new count is below 3, and otherwise falls through to the remaining checks
with the rewritten serve path. -/
theorem do_GET_fto_step (fs : FS) (c : Counts) (P : Path)
    (h404 : ¬ s404 <:+: P) (h500 : ¬ s500 <:+: P) (hslow : ¬ sslow <:+: P)
    (hfto : sfto <:+: P) :
    (do_GET fs c P).2 = bump c P ∧
    (do_GET fs c P).1 = (if c P + 1 < 3 then .err 503 "Service Temporarily Unavailable"
      else afterFTO fs P (orSlash (stripAll sfto P))) := by
  unfold do_GET
  rw [if_neg h404, if_neg h500, if_neg hslow, if_pos hfto]
  by_cases hc : c P + 1 < 3
  · rw [if_pos hc, if_pos hc]; exact ⟨rfl, rfl⟩
  · rw [if_neg hc, if_neg hc]; exact ⟨rfl, rfl⟩

/-- After `n` requests to such a path from the fresh table, its counter
entry is exactly `n`. -/
theorem countsAfter_self (fs : FS) (P : Path)
    (h404 : ¬ s404 <:+: P) (h500 : ¬ s500 <:+: P) (hslow : ¬ sslow <:+: P)
    (hfto : sfto <:+: P) :
    ∀ n, countsAfter fs P freshCounts n P = n := by
  intro n
  induction n with
  | zero => rfl
  | succ n ih =>
    show (do_GET fs (countsAfter fs P freshCounts n) P).2 P = n + 1
    rw [(do_GET_fto_step fs _ P h404 h500 hslow hfto).1, bump_self, ih]

/-- The fall-through checks produce a 200 response as soon as one of the
three remaining scenarios matches or the serve path resolves to a file. -/
theorem afterFTO_status_200 (fs : FS) (P sp : Path)
    (h : swc <:+: P ∨ scz <:+: P ∨ ssf <:+: P ∨ (fs sp).isSome = true) :
    (afterFTO fs P sp).status = 200 := by
  unfold afterFTO
  by_cases h1 : swc <:+: P
  · rw [if_pos h1]; rfl
  · rw [if_neg h1]
    by_cases h2 : scz <:+: P
    · rw [if_pos h2]; rfl
    · rw [if_neg h2]
      by_cases h3 : ssf <:+: P
      · rw [if_pos h3]; rfl
      · rw [if_neg h3]
        have h4 : (fs sp).isSome = true := by
          rcases h with h | h | h | h
          · exact absurd h h1
          · exact absurd h h2
          · exact absurd h h3
          · exact h
        obtain ⟨b, hb⟩ := Option.isSome_iff_exists.mp h4
        unfold serveStatic
        rw [hb]
        rfl

/-! ### Claim theorems -/

/-- C4: scenario checks are evaluated top-to-bottom and the first matching
check alone determines the response: any path containing "/404" gets exactly
a 404 response (with the table untouched), regardless of what else the path
contains — in particular a path also containing "/500". -/
theorem C4_first_match_404 (fs : FS) (c : Counts) (P : Path) (h : s404 <:+: P) :
    (do_GET fs c P).1 = .err 404 "Not Found" ∧
    (do_GET fs c P).1.status = 404 ∧ (do_GET fs c P).2 = c := by
  unfold do_GET
  rw [if_pos h]
  exact ⟨rfl, rfl, rfl⟩

theorem C4_witness :
    (s404 <:+: "/404/500".data ∧ s500 <:+: "/404/500".data) ∧
    (do_GET fsEmpty freshCounts "/404/500".data).1.status = 404 :=
  ⟨by decide, (C4_first_match_404 fsEmpty freshCounts "/404/500".data (by decide)).2.1⟩

/-- C6: a GET whose path contains "/wrong-checksum" and matches no earlier
scenario check gets status 200, content type "application/octet-stream",
and a body of exactly 1,400,000 bytes: 100,000 repetitions of the 14-byte
ASCII string "wrong content "; the counter table is untouched. -/
theorem C6_wrong_checksum (fs : FS) (c : Counts) (P : Path)
    (h404 : ¬ s404 <:+: P) (h500 : ¬ s500 <:+: P) (hslow : ¬ sslow <:+: P)
    (hfto : ¬ sfto <:+: P) (hwc : swc <:+: P) :
    (do_GET fs c P).1 = .content "application/octet-stream" wrongChecksumBody ∧
    (do_GET fs c P).1.status = 200 ∧
    wrongChecksumBody = (List.replicate 100000 wrongChunk).flatten ∧
    wrongChunk = "wrong content ".data.map Char.toNat ∧
    wrongChunk.length = 14 ∧
    wrongChecksumBody.length = 1400000 ∧
    (do_GET fs c P).2 = c := by
  have h1 : (do_GET fs c P).1 = .content "application/octet-stream" wrongChecksumBody ∧
      (do_GET fs c P).2 = c := by
    unfold do_GET afterFTO
    rw [if_neg h404, if_neg h500, if_neg hslow, if_neg hfto, if_pos hwc]
    exact ⟨rfl, rfl⟩
  have hlen : wrongChecksumBody.length = 1400000 := by
    have h14 : wrongChunk.length = 14 := by decide
    unfold wrongChecksumBody
    rw [List.length_flatten, List.map_replicate, h14, List.sum_const_nat]
  exact ⟨h1.1, by rw [h1.1]; rfl, rfl, rfl, by decide, hlen, h1.2⟩

theorem C6_witness :
    (do_GET fsEmpty freshCounts "/wrong-checksum".data).1
      = .content "application/octet-stream" wrongChecksumBody ∧
    wrongChecksumBody.length = 1400000 :=
  have h := C6_wrong_checksum fsEmpty freshCounts "/wrong-checksum".data
    (by decide) (by decide) (by decide) (by decide) (by decide)
  ⟨h.1, h.2.2.2.2.2.1⟩

/-- C7: a GET whose path contains "/corrupted.zip" and matches no earlier
scenario check gets status 200, content type "application/zip", and a body
of exactly 104 bytes: the 4-byte ZIP magic "PK\x03\x04" (bytes 80, 75, 3, 4)
followed by 100 zero bytes; the counter table is untouched. -/
theorem C7_corrupted_zip (fs : FS) (c : Counts) (P : Path)
    (h404 : ¬ s404 <:+: P) (h500 : ¬ s500 <:+: P) (hslow : ¬ sslow <:+: P)
    (hfto : ¬ sfto <:+: P) (hwc : ¬ swc <:+: P) (hcz : scz <:+: P) :
    (do_GET fs c P).1 = .content "application/zip" corruptedZipBody ∧
    (do_GET fs c P).1.status = 200 ∧
    corruptedZipBody = [80, 75, 3, 4] ++ List.replicate 100 0 ∧
    ('P'.toNat = 80 ∧ 'K'.toNat = 75) ∧
    corruptedZipBody.length = 104 ∧
    (∀ b ∈ corruptedZipBody.drop 4, b = 0) ∧
    (do_GET fs c P).2 = c := by
  have h1 : (do_GET fs c P).1 = .content "application/zip" corruptedZipBody ∧
      (do_GET fs c P).2 = c := by
    unfold do_GET afterFTO
    rw [if_neg h404, if_neg h500, if_neg hslow, if_neg hfto, if_neg hwc, if_pos hcz]
    exact ⟨rfl, rfl⟩
  exact ⟨h1.1, by rw [h1.1]; rfl, rfl, by decide, by decide, by decide, h1.2⟩

theorem C7_witness :
    (do_GET fsEmpty freshCounts "/corrupted.zip".data).1
      = .content "application/zip" corruptedZipBody ∧
    corruptedZipBody.length = 104 :=
  have h := C7_corrupted_zip fsEmpty freshCounts "/corrupted.zip".data
    (by decide) (by decide) (by decide) (by decide) (by decide) (by decide)
  ⟨h.1, h.2.2.2.2.1⟩

/-- C2: the claim requires a concurrently-issued request to another path to
complete promptly while a "/slow" request is outstanding.  The code's server
(`ReusableTCPServer`, a plain synchronous `socketserver.TCPServer`) handles
connections one at a time, so a "/small-file" request queued behind a
"/slow" request completes only at t = 120 s — its own handling takes 0 s;
the whole delay comes from the other request's sleep. -/
theorem C2_slow_blocks_small_file :
    serial_completion_times ["/slow".data, "/small-file".data] = [120, 120] ∧
    handle_seconds "/small-file".data = 0 ∧
    handle_seconds "/slow".data = 120 := by
  refine ⟨by decide, by decide, by decide⟩

/-- C8: startup fixture creation is idempotent: when `mock_binary` is absent
it is created with exactly 2,097,152 bytes, all zero; when a file of that
name exists (whatever its contents) the store is left unchanged; no other
entry of the store is ever touched; and running startup twice equals running
it once. -/
theorem C8_fixture_idempotent (fs : FS) :
    (fs mock_binary = none →
      ensure_mock_binary fs mock_binary = some (List.replicate MOCK_BINARY_SIZE 0) ∧
      (List.replicate MOCK_BINARY_SIZE (0 : Nat)).length = 2097152 ∧
      (∀ b ∈ List.replicate MOCK_BINARY_SIZE (0 : Nat), b = 0)) ∧
    (∀ b, fs mock_binary = some b → ensure_mock_binary fs = fs) ∧
    (∀ p, p ≠ mock_binary → ensure_mock_binary fs p = fs p) ∧
    ensure_mock_binary (ensure_mock_binary fs) = ensure_mock_binary fs := by
  have habs : ∀ g : FS, g mock_binary = none →
      ensure_mock_binary g = fun p =>
        if p = mock_binary then some (List.replicate MOCK_BINARY_SIZE 0) else g p := by
    intro g hg
    unfold ensure_mock_binary
    rw [hg]
    rfl
  have hpres : ∀ (g : FS) b, g mock_binary = some b → ensure_mock_binary g = g := by
    intro g b hg
    unfold ensure_mock_binary
    rw [hg]
    rfl
  refine ⟨?_, fun b hb => hpres fs b hb, ?_, ?_⟩
  · intro h
    refine ⟨?_, by rw [List.length_replicate]; rfl, fun b hb => List.eq_of_mem_replicate hb⟩
    rw [habs fs h]
    exact if_pos rfl
  · intro p hp
    by_cases h : fs mock_binary = none
    · rw [habs fs h]
      exact if_neg hp
    · obtain ⟨b, hb⟩ := Option.ne_none_iff_exists'.mp h
      rw [hpres fs b hb]
  · by_cases h : fs mock_binary = none
    · have h2 : ensure_mock_binary fs mock_binary
          = some (List.replicate MOCK_BINARY_SIZE 0) := by
        rw [habs fs h]
        exact if_pos rfl
      exact hpres (ensure_mock_binary fs) _ h2
    · obtain ⟨b, hb⟩ := Option.ne_none_iff_exists'.mp h
      rw [hpres fs b hb, hpres fs b hb]

theorem C8_witness :
    ensure_mock_binary fsEmpty mock_binary = some (List.replicate MOCK_BINARY_SIZE 0) ∧
    (List.replicate MOCK_BINARY_SIZE (0 : Nat)).length = 2097152 :=
  have h := (C8_fixture_idempotent fsEmpty).1 rfl
  ⟨h.1, h.2.1⟩

/-- C9: the failure-simulation dispatch applies only to GET requests: a
non-GET request, even to a path containing a scenario substring, is handled
entirely by the static-file delegate's default behavior and leaves the
retry-counter table unchanged. -/
theorem C9_non_get_delegated (delegate : String → Path → Response) (fs : FS)
    (c : Counts) (m : String) (p : Path) (h : m ≠ "GET") :
    handle_request delegate fs c m p = (delegate m p, c) := by
  unfold handle_request
  rw [if_neg h]

theorem C9_witness :
    (s404 <:+: "/404/fail-then-ok".data) ∧
    handle_request (fun _ _ => .err 501 "Unsupported method") fsEmpty freshCounts
        "POST" "/404/fail-then-ok".data
      = (.err 501 "Unsupported method", freshCounts) :=
  ⟨by decide, C9_non_get_delegated (fun _ _ => .err 501 "Unsupported method") fsEmpty
    freshCounts "POST" "/404/fail-then-ok".data (by decide)⟩

/-- C10: per-request logging is enabled exactly when the DEBUG environment
variable is a non-empty string — any non-empty value, including "0" and
"false", enables it; unset or empty keeps the server silent — and the
toggle has no effect on the response or the counter table. -/
theorem C10_debug_toggle :
    log_message none = false ∧
    log_message (some "") = false ∧
    (∀ s : String, s ≠ "" → log_message (some s) = true) ∧
    (log_message (some "0") = true ∧ log_message (some "false") = true) ∧
    (∀ d d' fs c p, (handle_logged d fs c p).1 = (handle_logged d' fs c p).1 ∧
      (handle_logged d fs c p).2.1 = (handle_logged d' fs c p).2.1) := by
  refine ⟨rfl, by decide, ?_, by decide, ?_⟩
  · intro s hs
    show (if s = "" then false else true) = true
    rw [if_neg hs]
  · intro d d' fs c p
    exact ⟨rfl, rfl⟩

theorem C10_witness : log_message (some "0") = true :=
  C10_debug_toggle.2.2.1 "0" (by decide)

/-- C1 as stated quantifies over EVERY path containing "/fail-then-ok"; but
"/404/fail-then-ok" contains it and its very first request from the fresh
table is answered 404 (the "/404" check fires first and the counter is never
consulted), not 503. -/
theorem C1_counterexample :
    sfto <:+: "/404/fail-then-ok".data ∧
    (do_GET fsEmpty freshCounts "/404/fail-then-ok".data).1.status = 404 ∧
    ¬ (do_GET fsEmpty freshCounts "/404/fail-then-ok".data).1.status = 503 := by
  refine ⟨by decide, by decide, by decide⟩

/-- C1 (amended): for a fixed path P containing "/fail-then-ok" that matches
none of the earlier checks ("/404", "/500", "/slow"), and whose fall-through
handling yields 200 (a later scenario substring occurs in P, or the
rewritten path resolves to a fixture file), sequential requests from the
fresh table are answered 503, 503, and then 200 forever: request n+1 gets
503 when n < 2 and 200 from the third request on — the counter saturates
and never resets. -/
theorem C1_fail_then_ok_sequence (fs : FS) (P : Path)
    (h404 : ¬ s404 <:+: P) (h500 : ¬ s500 <:+: P) (hslow : ¬ sslow <:+: P)
    (hfto : sfto <:+: P)
    (h200 : swc <:+: P ∨ scz <:+: P ∨ ssf <:+: P ∨
      (fs (orSlash (stripAll sfto P))).isSome = true) :
    ∀ n : Nat, (do_GET fs (countsAfter fs P freshCounts n) P).1.status
      = if n < 2 then 503 else 200 := by
  intro n
  have hc := countsAfter_self fs P h404 h500 hslow hfto n
  have hstep := (do_GET_fto_step fs (countsAfter fs P freshCounts n) P h404 h500 hslow hfto).2
  rw [hstep, hc]
  by_cases hn : n < 2
  · rw [if_pos (show n + 1 < 3 by omega), if_pos hn]
    rfl
  · rw [if_neg (show ¬ n + 1 < 3 by omega), if_neg hn]
    exact afterFTO_status_200 fs P _ h200

/-- A fixture store holding one file "/ok". -/
def fsOk : FS := fun p => if p = "/ok".data then some [7] else none

theorem C1_witness :
    (do_GET fsOk (countsAfter fsOk "/fail-then-ok/ok".data freshCounts 2)
        "/fail-then-ok/ok".data).1.status = if 2 < 2 then 503 else 200 :=
  C1_fail_then_ok_sequence fsOk "/fail-then-ok/ok".data
    (by decide) (by decide) (by decide) (by decide)
    (Or.inr (Or.inr (Or.inr (by decide)))) 2

/-- The path of the C3 counterexample: it contains "/fail-then-ok" and also
"/wrong-checksum". -/
def pFtoWc : Path := "/fail-then-ok/wrong-checksum".data

/-- A counter table in which `pFtoWc` has already been seen twice. -/
def cFtoWc : Counts := fun q => if q = pFtoWc then 2 else 0

/-- A fixture store holding a file at "/wrong-checksum", the rewrite of
`pFtoWc`. -/
def fsFtoWc : FS := fun p => if p = "/wrong-checksum".data then some [1, 2, 3] else none

/-- C3 as stated says that once the incremented count reaches 3 the response
IS static serving of the rewritten path, even when the path also contains
another scenario substring.  On "/fail-then-ok/wrong-checksum" with count
reaching 3, the code instead falls through to the remaining scenario checks,
which test the ORIGINAL path: the "/wrong-checksum" check fires and the
response is the wrong-checksum body, not the static file stored at the
rewritten path "/wrong-checksum". -/
theorem C3_counterexample :
    sfto <:+: pFtoWc ∧
    cFtoWc pFtoWc + 1 ≥ 3 ∧
    orSlash (stripAll sfto pFtoWc) = "/wrong-checksum".data ∧
    serveStatic fsFtoWc (orSlash (stripAll sfto pFtoWc)) = .staticOk [1, 2, 3] ∧
    (do_GET fsFtoWc cFtoWc pFtoWc).1 = .content "application/octet-stream" wrongChecksumBody ∧
    (do_GET fsFtoWc cFtoWc pFtoWc).1 ≠ serveStatic fsFtoWc (orSlash (stripAll sfto pFtoWc)) := by
  have h4 : serveStatic fsFtoWc (orSlash (stripAll sfto pFtoWc)) = .staticOk [1, 2, 3] := by
    decide
  have h5 : (do_GET fsFtoWc cFtoWc pFtoWc).1
      = .content "application/octet-stream" wrongChecksumBody := rfl
  refine ⟨by decide, by decide, by decide, h4, h5, ?_⟩
  rw [h4, h5]
  exact fun hcon => Response.noConfusion hcon

/-- C3 (amended): when the incremented count reaches 3, the path is
rewritten by deleting every occurrence of "/fail-then-ok" (collapsing to "/"
when empty — not merely stripping a leading prefix) and handling falls
through to the REMAINING scenario checks, which are evaluated on the
original path; the response equals static serving of the rewritten path
exactly when none of "/wrong-checksum", "/corrupted.zip", "/small-file"
occurs in the original path. -/
theorem C3_fallthrough (fs : FS) (c : Counts) (P : Path)
    (h404 : ¬ s404 <:+: P) (h500 : ¬ s500 <:+: P) (hslow : ¬ sslow <:+: P)
    (hfto : sfto <:+: P) (hcount : c P + 1 ≥ 3) :
    (do_GET fs c P).1 = afterFTO fs P (orSlash (stripAll sfto P)) ∧
    (¬ swc <:+: P → ¬ scz <:+: P → ¬ ssf <:+: P →
      (do_GET fs c P).1 = serveStatic fs (orSlash (stripAll sfto P))) := by
  have hstep := (do_GET_fto_step fs c P h404 h500 hslow hfto).2
  rw [hstep, if_neg (show ¬ c P + 1 < 3 by omega)]
  refine ⟨rfl, fun hwc hcz hsf => ?_⟩
  unfold afterFTO
  rw [if_neg hwc, if_neg hcz, if_neg hsf]

/-- A counter table in which "/fail-then-ok/ok" has already been seen
twice. -/
def cTwoOk : Counts := fun q => if q = "/fail-then-ok/ok".data then 2 else 0

theorem C3_witness :
    (do_GET fsOk cTwoOk "/fail-then-ok/ok".data).1
      = serveStatic fsOk (orSlash (stripAll sfto "/fail-then-ok/ok".data)) :=
  (C3_fallthrough fsOk cTwoOk "/fail-then-ok/ok".data
    (by decide) (by decide) (by decide) (by decide) (by decide)).2
    (by decide) (by decide) (by decide)

/-- C5: counter independence between distinct paths: one request to P1
changes no counter entry other than P1's, and after any number of requests
to P1 the entry of a distinct P2 is unchanged and a request to P2 produces
exactly the response it would have produced before. -/
theorem C5_counter_independence (fs : FS) (c : Counts) (P1 P2 : Path) (h : P1 ≠ P2) :
    (∀ q, q ≠ P1 → (do_GET fs c P1).2 q = c q) ∧
    (∀ n, countsAfter fs P1 c n P2 = c P2 ∧
      (do_GET fs (countsAfter fs P1 c n) P2).1 = (do_GET fs c P2).1) := by
  refine ⟨fun q hq => do_GET_counts_frame fs c P1 q hq, fun n => ?_⟩
  induction n with
  | zero => exact ⟨rfl, rfl⟩
  | succ n ih =>
    have h1 : countsAfter fs P1 c (n + 1) P2 = c P2 := by
      show (do_GET fs (countsAfter fs P1 c n) P1).2 P2 = c P2
      rw [do_GET_counts_frame fs _ P1 P2 (Ne.symm h), ih.1]
    exact ⟨h1, do_GET_resp_congr fs _ c P2 h1⟩

/-- First C5 test path. -/
def p5a : Path := "/fail-then-ok/a".data

/-- Second C5 test path. -/
def p5b : Path := "/fail-then-ok/b".data

theorem C5_witness :
    sfto <:+: p5a ∧ sfto <:+: p5b ∧
    countsAfter fsEmpty p5a freshCounts 3 p5b = freshCounts p5b ∧
    (do_GET fsEmpty (countsAfter fsEmpty p5a freshCounts 3) p5b).1
      = (do_GET fsEmpty freshCounts p5b).1 :=
  have h := (C5_counter_independence fsEmpty freshCounts p5a p5b (by decide)).2 3
  ⟨by decide, by decide, h.1, h.2⟩

end MockServer
